import Mathlib

/-!
Verification development for a World-Bank-indicator analysis script.

The script reshapes a wide country-by-year indicator table into pivoted
views (`data_read`), subsets them (`subset_data`), filters and slices them
(`filter_Methane_emission_data`), and fits an exponential growth model per
row with a parametric confidence interval (`exp_growth`, `err_ranges`,
`predict_future`).

Numeric cells are modelled as `Option ℚ` (`none` = missing/NaN in a table
cell).  External library collaborators with no logic in this repository —
the numeric-token parser behind `pd.to_numeric`, `np.exp`, `np.sqrt`, the
Student-t quantile `scipy.stats.t.ppf`, and the least-squares solver
`scipy.optimize.curve_fit` — are passed in as explicit function
parameters, so every definition stays executable.
-/

/-! ### Generic list helpers (sorting, dedup, mean) used by the pivots -/

def charsLe : List Char → List Char → Bool
  | [], _ => true
  | _ :: _, [] => false
  | a :: as, b :: bs =>
      if a.toNat < b.toNat then true
      else if b.toNat < a.toNat then false
      else charsLe as bs

def strLe (a b : String) : Bool := charsLe a.toList b.toList

def qleb (a b : ℚ) : Bool := decide (a ≤ b)

def keyLe (a b : String × String) : Bool :=
  if a.1 = b.1 then strLe a.2 b.2 else strLe a.1 b.1

def ykeyLe (a b : ℚ × String) : Bool :=
  if a.1 = b.1 then strLe a.2 b.2 else qleb a.1 b.1

def insertBy (le : α → α → Bool) (a : α) : List α → List α
  | [] => [a]
  | b :: bs => if le a b then a :: b :: bs else b :: insertBy le a bs

def sortBy (le : α → α → Bool) : List α → List α
  | [] => []
  | a :: as => insertBy le a (sortBy le as)

def uniq [DecidableEq α] : List α → List α
  | [] => []
  | a :: as => if a ∈ as then uniq as else a :: uniq as

/-- Mean of the non-missing entries; `none` when no non-missing entry
exists (an aggregation over an empty or all-NaN group yields NaN). -/
def meanOpt (vs : List (Option ℚ)) : Option ℚ :=
  let xs := vs.filterMap id
  if xs.length = 0 then none else some (xs.sum / (xs.length : ℚ))

/-! ### The numeric-token parser modelling `pd.to_numeric(·, errors = coerce)`.
It accepts an optional minus sign, an integer part and an optional decimal
fraction; every other token is mapped to `none` (missing), never an error. -/

def digitsToNat (cs : List Char) : ℕ :=
  cs.foldl (fun acc c => acc * 10 + (c.toNat - 48)) 0

def parseDecimal (cs : List Char) : Option ℚ :=
  let ip := cs.takeWhile Char.isDigit
  let rest := cs.dropWhile Char.isDigit
  match rest with
  | [] => if ip.isEmpty then none else some (digitsToNat ip : ℚ)
  | c :: frac =>
      if c = '.' && frac.all Char.isDigit && !(ip.isEmpty && frac.isEmpty) then
        some ((digitsToNat ip : ℚ) + (digitsToNat frac : ℚ) / (10 : ℚ) ^ frac.length)
      else none

def parseNum (s : String) : Option ℚ :=
  match s.toList with
  | [] => none
  | '-' :: rest => (parseDecimal rest).map (fun q => -q)
  | cs => parseDecimal cs

/-! ### Data model

A raw wide CSV row carries the four metadata columns and one string token
per year column; `Unnamed: 66` (the trailing-comma artifact) is not
represented because `data_read` drops it unconditionally. -/

structure WideRow where
  country : String
  countryCode : String
  indicator : String
  indicatorCode : String
  vals : List String
deriving DecidableEq

structure WideTable where
  yearCols : List String
  rows : List WideRow
deriving DecidableEq

/-- A row after dropping `Country Code` / `Indicator Code` / `Unnamed: 66`
and renaming `Country Name` to `Country`. -/
structure PrepRow where
  country : String
  indicator : String
  vals : List String
deriving DecidableEq

/-- One melted (long-format) row: `Country, Indicator Name, Year, Value`,
with `Year` and `Value` still raw string tokens. -/
structure TidyRow where
  country : String
  indicator : String
  year : String
  value : String
deriving DecidableEq

/-- A melted row after `pd.to_numeric(·, errors = coerce)` on `Year` and
`Value`: non-numeric tokens have become `none`. -/
structure NumRow where
  country : String
  indicator : String
  year : Option ℚ
  value : Option ℚ
deriving DecidableEq

/-- A pivoted table: row keys `idx`, column labels `cols`, and cells
row-major in `data` (`none` = NaN). -/
structure PTable (κ γ : Type) where
  idx : List κ
  cols : List γ
  data : List (List (Option ℚ))
deriving DecidableEq

/-! ### The reshaping pipeline of `data_read` -/

/-- Drop the metadata columns and rename `Country Name` to `Country`. -/
def dataPrep (T : WideTable) : List PrepRow × List String :=
  (T.rows.map (fun r => PrepRow.mk r.country r.indicator r.vals), T.yearCols)

/-- `melt(id_vars = Country, Indicator Name)`: one long row per
(year column, table row), stacked column-by-column as pandas does. -/
def meltRows (yearCols : List String) (rows : List PrepRow) : List TidyRow :=
  (List.range yearCols.length).flatMap (fun j =>
    rows.map (fun r =>
      TidyRow.mk r.country r.indicator (yearCols.getD j "") (r.vals.getD j "")))

/-- The Year/Value coercion step (`pd.to_numeric` with `errors = coerce`
on both columns): total, non-numeric tokens become `none`. -/
def coerceRows (rs : List TidyRow) : List NumRow :=
  rs.map (fun r => NumRow.mk r.country r.indicator (parseNum r.year) (parseNum r.value))

/-- `pivot_table(index = [Country, Indicator Name], columns = Year,
values = Value)`: rows with an unparseable (NaN) year are dropped from the
keys, index and columns are sorted unique, cells aggregate by mean. -/
def pivotYears (rs : List NumRow) : PTable (String × String) ℚ :=
  let valid := rs.filter (fun r => r.year.isSome)
  let keys := sortBy keyLe (uniq (valid.map (fun r => (r.country, r.indicator))))
  let cols := sortBy qleb (uniq (valid.filterMap (fun r => r.year)))
  { idx := keys
    cols := cols
    data := keys.map (fun k => cols.map (fun y =>
      meanOpt ((valid.filter (fun r =>
        r.country = k.1 && r.indicator = k.2 && r.year = some y)).map (fun r => r.value)))) }

/-- `pivot_table(index = [Year, Indicator Name], columns = Country,
values = Value)`. -/
def pivotCountries (rs : List NumRow) : PTable (ℚ × String) String :=
  let valid := rs.filter (fun r => r.year.isSome)
  let keys := sortBy ykeyLe (uniq (valid.filterMap (fun r =>
    r.year.map (fun y => (y, r.indicator)))))
  let cols := sortBy strLe (uniq (valid.map (fun r => r.country)))
  { idx := keys
    cols := cols
    data := keys.map (fun k => cols.map (fun c =>
      meanOpt ((valid.filter (fun r =>
        r.year = some k.1 && r.indicator = k.2 && r.country = c)).map (fun r => r.value)))) }

/-- Column `j` of `data` is entirely missing. -/
def colAllNone (data : List (List (Option ℚ))) (j : ℕ) : Bool :=
  data.all (fun row => (row.getD j none).isNone)

/-- `dropna(how = all, axis = 1)`: remove every column whose entries are
all missing. -/
def dropAllNanCols (t : PTable κ γ) : PTable κ γ :=
  let keep := (List.range t.cols.length).filter (fun j => !(colAllNone t.data j))
  { idx := t.idx
    cols := keep.filterMap (fun j => t.cols[j]?)
    data := t.data.map (fun row => keep.map (fun j => row.getD j none)) }

/-- `data_read`: drop/rename, melt, coerce, pivot twice, and drop all-NaN
columns from both pivoted views. -/
def data_read (T : WideTable) :
    PTable (String × String) ℚ × PTable (ℚ × String) String :=
  let pr := dataPrep T
  let coerced := coerceRows (meltRows pr.2 pr.1)
  let df_years := dropAllNanCols (pivotYears coerced)
  let df_countries := dropAllNanCols (pivotCountries coerced)
  (df_years, df_countries)

/-! ### `subset_data` -/

/-- `years = list(range(1990, 2019))`, as the (float) column labels they
are matched against. -/
def yearsList : List ℚ := (List.range' 1990 29).map (fun n => (n : ℚ))

/-- The cell of a row at the column labelled `y`. -/
def lookupCell (cols : List ℚ) (row : List (Option ℚ)) (y : ℚ) : Option ℚ :=
  match (cols.zip row).find? (fun p => p.1 = y) with
  | some p => p.2
  | none => none

/-- `DataFrame.transpose`. -/
def transposeT (t : PTable κ γ) : PTable γ κ :=
  { idx := t.cols
    cols := t.idx
    data := (List.range t.cols.length).map (fun j => t.data.map (fun row => row.getD j none)) }

/-- `df_years.loc[(countries, indicators), years].transpose()`.
`.loc` with lists raises `KeyError` when a listed country is absent from
the first index level, a listed indicator absent from the second level, or
a listed year absent from the columns; otherwise it returns the rows whose
key lies in the requested cross product, in index order. -/
def subset_data (v : PTable (String × String) ℚ) (countries indicators : List String) :
    Except String (PTable ℚ (String × String)) :=
  let years := yearsList
  let ok1 := countries.all (fun c => v.idx.any (fun k => k.1 = c))
  let ok2 := indicators.all (fun i => v.idx.any (fun k => k.2 = i))
  let ok3 := years.all (fun y => decide (y ∈ v.cols))
  if ok1 && ok2 && ok3 then
    let kept := (v.idx.zip v.data).filter (fun p =>
      decide (p.1.1 ∈ countries) && decide (p.1.2 ∈ indicators))
    Except.ok (transposeT
      { idx := kept.map (fun p => p.1)
        cols := years
        data := kept.map (fun p => years.map (fun y => lookupCell v.cols p.2 y)) })
  else Except.error "KeyError: not in index"

/-! ### `filter_Methane_emission_data` -/

/-- The row filter `isin(countries) & isin(indicators)` applied to the
wide table before melting. -/
def rowFilter (countries indicators : List String) (rows : List PrepRow) : List PrepRow :=
  rows.filter (fun r =>
    decide (r.country ∈ countries) && decide (r.indicator ∈ indicators))

/-- `.loc[:, start_year:end_year]`: label-based column slice on the
(sorted) year columns, both endpoints included. -/
def colRangeSlice (s e : ℚ) (t : PTable κ ℚ) : PTable κ ℚ :=
  { idx := t.idx
    cols := t.cols.filter (fun y => qleb s y && qleb y e)
    data := t.data.map (fun row =>
      ((t.cols.zip row).filter (fun p => qleb s p.1 && qleb p.1 e)).map (fun p => p.2)) }

/-- `filter_Methane_emission_data`: drop/rename, filter the rows to the
requested countries and indicators, melt, coerce, pivot to a years-view,
then slice the columns to `[start_year, end_year]`. -/
def filter_Methane_emission_data (T : WideTable) (countries indicators : List String)
    (start_year end_year : ℚ) : PTable (String × String) ℚ :=
  let pr := dataPrep T
  let filtered := rowFilter countries indicators pr.1
  let pv := pivotYears (coerceRows (meltRows pr.2 filtered))
  colRangeSlice start_year end_year pv

/-! ### `exp_growth` and `err_ranges`

`rexp` abstracts `np.exp`, `sq` abstracts `np.sqrt`, and `tp` abstracts
the Student-t quantile `scipy.stats.t.ppf(q, df)`. -/

/-- `exp_growth(x, a, b) = a * np.exp(b * x)`. -/
def exp_growth (rexp : ℚ → ℚ) (x a b : ℚ) : ℚ := a * rexp (b * x)

/-- `np.diag` of a square matrix given as a row list. -/
def diag (m : List (List ℚ)) : List ℚ :=
  (List.range m.length).map (fun i => (m.getD i []).getD i 0)

/-- `err_ranges(xdata, ydata, popt, pcov, alpha = 0.05)` translated line by
line: `df = max(0, n - m)` (ℕ subtraction), `tval = -t.ppf(alpha/2, df)`,
residuals against `exp_growth(xdata, *popt)`, `stdev = sqrt(sum(res^2)/df)`,
and `ci = tval * stdev * sqrt(diag(pcov))`. -/
def err_ranges (sq : ℚ → ℚ) (tp : ℚ → ℕ → ℚ) (rexp : ℚ → ℚ)
    (xdata ydata popt : List ℚ) (pcov : List (List ℚ)) (alpha : ℚ) : List ℚ :=
  let n := ydata.length
  let m := popt.length
  let dof := n - m
  let tval := -1 * tp (alpha / 2) dof
  let a := popt.getD 0 0
  let b := popt.getD 1 0
  let residuals := (ydata.zip xdata).map (fun p => p.1 - exp_growth rexp p.2 a b)
  let stdev := sq ((residuals.map (fun r => r * r)).sum / (dof : ℚ))
  (diag pcov).map (fun d => tval * stdev * sq d)

/-- Follows the spec's words for `confidence_interval`: degrees of freedom
`max(0, n_observations - n_params)` (over ℤ, then truncated to ℕ), critical
value the two-tailed Student-t quantile at `alpha/2` — i.e. the upper-tail
quantile `t.ppf(1 - alpha/2, df)` —, residual standard deviation
`sqrt(sum of squared residuals / df)`, and per-parameter half-width
`critical * stdev * sqrt(diag entry of pcov)`. -/
def confidence_interval_spec (sq : ℚ → ℚ) (tp : ℚ → ℕ → ℚ) (rexp : ℚ → ℚ)
    (xdata ydata popt : List ℚ) (pcov : List (List ℚ)) (alpha : ℚ) : List ℚ :=
  let dof := (max 0 ((ydata.length : ℤ) - (popt.length : ℤ))).toNat
  let critical := tp (1 - alpha / 2) dof
  let a := popt.getD 0 0
  let b := popt.getD 1 0
  let residuals := (ydata.zip xdata).map (fun p => p.1 - exp_growth rexp p.2 a b)
  let stdev := sq ((residuals.map (fun r => r * r)).sum / (dof : ℚ))
  (diag pcov).map (fun d => critical * stdev * sq d)

/-! ### IEEE-style special values

`err_ranges` runs on floats; at zero degrees of freedom its behaviour is
governed entirely by NaN/infinity propagation, which `ℚ` cannot express.
`FV` is an exact-significand float model: a finite rational, the two
infinities, or NaN, with IEEE 754 arithmetic on the special values. -/

inductive FV where
  | num : ℚ → FV
  | inf : FV
  | ninf : FV
  | nan : FV
deriving DecidableEq

def FV.neg : FV → FV
  | num q => num (-q)
  | inf => ninf
  | ninf => inf
  | nan => nan

def FV.add : FV → FV → FV
  | num a, num b => num (a + b)
  | num _, inf => inf
  | num _, ninf => ninf
  | num _, nan => nan
  | inf, num _ => inf
  | inf, inf => inf
  | inf, ninf => nan
  | inf, nan => nan
  | ninf, num _ => ninf
  | ninf, inf => nan
  | ninf, ninf => ninf
  | ninf, nan => nan
  | nan, _ => nan

def FV.sub (a b : FV) : FV := a.add b.neg

def FV.mul : FV → FV → FV
  | num a, num b => num (a * b)
  | num a, inf => if 0 < a then inf else if a < 0 then ninf else nan
  | num a, ninf => if 0 < a then ninf else if a < 0 then inf else nan
  | num _, nan => nan
  | inf, num b => if 0 < b then inf else if b < 0 then ninf else nan
  | inf, inf => inf
  | inf, ninf => ninf
  | inf, nan => nan
  | ninf, num b => if 0 < b then ninf else if b < 0 then inf else nan
  | ninf, inf => ninf
  | ninf, ninf => inf
  | ninf, nan => nan
  | nan, _ => nan

def FV.div : FV → FV → FV
  | num a, num b =>
      if b = 0 then (if 0 < a then inf else if a < 0 then ninf else nan)
      else num (a / b)
  | num _, inf => num 0
  | num _, ninf => num 0
  | num _, nan => nan
  | inf, num b => if b < 0 then ninf else inf
  | inf, inf => nan
  | inf, ninf => nan
  | inf, nan => nan
  | ninf, num b => if b < 0 then inf else ninf
  | ninf, inf => nan
  | ninf, ninf => nan
  | ninf, nan => nan
  | nan, _ => nan

/-- `np.sqrt` on special values; `sq` supplies the finite nonnegative case. -/
def sqrtF (sq : ℚ → ℚ) : FV → FV
  | FV.num a => if a < 0 then FV.nan else FV.num (sq a)
  | FV.inf => FV.inf
  | FV.ninf => FV.nan
  | FV.nan => FV.nan

/-- `np.exp` on special values; `rexp` supplies the finite case. -/
def expF (rexp : ℚ → ℚ) : FV → FV
  | FV.num a => FV.num (rexp a)
  | FV.inf => FV.inf
  | FV.ninf => FV.num 0
  | FV.nan => FV.nan

def exp_growthF (rexp : ℚ → ℚ) (x a b : FV) : FV := a.mul (expF rexp (b.mul x))

def diagF (m : List (List FV)) : List FV :=
  (List.range m.length).map (fun i => (m.getD i []).getD i (FV.num 0))

/-- `err_ranges` again, with float special-value semantics and the
Student-t quantile collaborator `tp` returning an `FV` (scipy's `t.ppf`
returns NaN when `df = 0`). -/
def err_rangesF (sq : ℚ → ℚ) (tp : ℚ → ℕ → FV) (rexp : ℚ → ℚ)
    (xdata ydata popt : List FV) (pcov : List (List FV)) (alpha : ℚ) : List FV :=
  let n := ydata.length
  let m := popt.length
  let dof := n - m
  let tval := (FV.num (-1)).mul (tp (alpha / 2) dof)
  let a := popt.getD 0 (FV.num 0)
  let b := popt.getD 1 (FV.num 0)
  let residuals := (ydata.zip xdata).map (fun p => p.1.sub (exp_growthF rexp p.2 a b))
  let stdev := sqrtF sq (((residuals.map (fun r => r.mul r)).foldl FV.add (FV.num 0)).div
    (FV.num (dof : ℚ)))
  (diagF pcov).map (fun d => (tval.mul stdev).mul (sqrtF sq d))

/-! ### `predict_future` -/

/-- `growth_rate[i] = popt[1]`: numpy broadcast of a scalar onto row `i`
of the matrix. -/
def setRow : List (List ℚ) → ℕ → ℚ → List (List ℚ)
  | [], _, _ => []
  | row :: rest, 0, v => row.map (fun _ => v) :: rest
  | row :: rest, i + 1, v => row :: setRow rest i v

/-- `predict_future`: filter and slice the data, allocate
`np.zeros(data.shape)`, and for every row fit `exp_growth` against the
zero-based column positions `np.arange(data.shape[1])`, compute the
confidence interval, and write `popt[1]` across row `i`.  `cf` abstracts
`scipy.optimize.curve_fit`, returning `(popt, pcov)` for a given model,
x-data and y-data; the plotting calls have no effect on the result. -/
def predict_future
    (cf : (ℚ → ℚ → ℚ → ℚ) → List ℚ → List (Option ℚ) → ((ℚ × ℚ) × List (List ℚ)))
    (sq : ℚ → ℚ) (tp : ℚ → ℕ → ℚ) (rexp : ℚ → ℚ)
    (T : WideTable) (countries indicators : List String)
    (start_year end_year : ℚ) : List (List ℚ) :=
  let data := filter_Methane_emission_data T countries indicators start_year end_year
  let nrows := data.idx.length
  let ncols := data.cols.length
  let xarange := (List.range ncols).map (fun k => (k : ℚ))
  let init := List.replicate nrows (List.replicate ncols (0 : ℚ))
  (List.range nrows).foldl (fun acc i =>
    let row := data.data.getD i []
    let fitres := cf (exp_growth rexp) xarange row
    let popt := fitres.1
    let _ci := err_ranges sq tp rexp xarange (row.map (fun o => o.getD 0))
      [popt.1, popt.2] fitres.2 (1 / 20)
    setRow acc i popt.2) init

/-! ## Theorems -/

/-! ### C1: the confidence-interval formula -/

/-- C1: `err_ranges` computes degrees of freedom `max(0, n − m)`, a
critical value equal to the two-tailed Student-t quantile at `alpha/2`
(the upper-tail quantile, by symmetry of the t distribution), the residual
standard deviation `sqrt(sum of squared residuals / df)`, and returns
per-parameter half-widths `critical * stdev * sqrt(diag pcov)`: it agrees
with the spec-side `confidence_interval_spec` whenever the quantile
collaborator `tp` has the t-distribution's symmetry. -/
theorem err_ranges_matches_spec (sq : ℚ → ℚ) (tp : ℚ → ℕ → ℚ) (rexp : ℚ → ℚ)
    (xdata ydata popt : List ℚ) (pcov : List (List ℚ)) (alpha : ℚ)
    (hsym : ∀ q d, tp (1 - q) d = -(tp q d)) :
    err_ranges sq tp rexp xdata ydata popt pcov alpha
      = confidence_interval_spec sq tp rexp xdata ydata popt pcov alpha := by
  have hdof : (max 0 ((ydata.length : ℤ) - (popt.length : ℤ))).toNat
      = ydata.length - popt.length := by omega
  simp only [err_ranges, confidence_interval_spec, hdof, hsym (alpha / 2), neg_one_mul]

/-- A concrete symmetric stand-in for the Student-t quantile function,
used to exercise `err_ranges_matches_spec`. -/
def tpLin : ℚ → ℕ → ℚ := fun q _ => q - 1/2

theorem err_ranges_matches_spec_witness :
    err_ranges id tpLin (fun _ => 1) [0, 1, 2] [5, 7, 9] [1, 2] [[1, 0], [0, 1]] (1/20)
      = confidence_interval_spec id tpLin (fun _ => 1) [0, 1, 2] [5, 7, 9] [1, 2]
          [[1, 0], [0, 1]] (1/20) :=
  err_ranges_matches_spec _ _ _ _ _ _ _ _ (fun q d => by simp only [tpLin]; ring)

/-! ### C2: zero degrees of freedom -/

/-- C2: at zero degrees of freedom (`n = m = 2`) `err_ranges` raises no
error and returns no infinite half-width: with the Student-t quantile
collaborator returning NaN at `df = 0` (scipy's `t.ppf` behaviour), every
half-width is NaN — the degenerate case is silently unflagged.  The input
is concrete: `xdata = [0, 1]`, `ydata = [1, 3]`, `popt = [1, 0]`,
`pcov = I₂`, `alpha = 0.05`; the sum of squared residuals divided by the
zero degrees of freedom is `+∞`, and `NaN · ∞ = NaN` propagates. -/
theorem err_ranges_df_zero_nan :
    err_rangesF id (fun _ _ => FV.nan) id [FV.num 0, FV.num 1] [FV.num 1, FV.num 3]
        [FV.num 1, FV.num 0] [[FV.num 1, FV.num 0], [FV.num 0, FV.num 1]] (1/20)
      = [FV.nan, FV.nan]
    ∧ FV.nan ≠ FV.inf ∧ FV.nan ≠ FV.ninf := by
  refine ⟨?_, by decide, by decide⟩
  norm_num [err_rangesF, diagF, exp_growthF, expF, sqrtF, FV.mul, FV.add, FV.sub, FV.neg,
    FV.div]
  decide

/-! ### C3 and C4: `subset_data` -/

theorem map_fst_filter_zip {α β : Type} (p : α → Bool) :
    ∀ (l1 : List α) (l2 : List β), l1.length = l2.length →
      (((l1.zip l2).filter (fun q => p q.1)).map (fun q => q.1)) = l1.filter p := by
  intro l1
  induction l1 with
  | nil => intro l2 h; simp
  | cons a as ih =>
    intro l2 h
    cases l2 with
    | nil => simp at h
    | cons b bs =>
      simp only [List.zip_cons_cons, List.filter_cons]
      by_cases hp : p a
      · simp [hp, ih bs (by simpa using h)]
      · simp only [Bool.not_eq_true] at hp
        simp [hp, ih bs (by simpa using h)]

/-- The `.loc` label checks of `subset_data`, as a proposition. -/
theorem subset_checks_iff (v : PTable (String × String) ℚ) (countries indicators : List String) :
    (countries.all (fun c => v.idx.any (fun k => k.1 = c))
      && indicators.all (fun i => v.idx.any (fun k => k.2 = i))
      && yearsList.all (fun y => decide (y ∈ v.cols))) = true
    ↔ ((∀ c ∈ countries, ∃ k ∈ v.idx, k.1 = c)
        ∧ (∀ i ∈ indicators, ∃ k ∈ v.idx, k.2 = i)
        ∧ (∀ y ∈ yearsList, y ∈ v.cols)) := by
  simp [List.all_eq_true, List.any_eq_true, and_assoc]

/-- C3 counterexample input: the requested pair is present in the row
index, but the year columns 1990–2018 are absent. -/
def vC3 : PTable (String × String) ℚ := PTable.mk [("A", "x")] [] [[]]

/-- C3 counterexample: with the requested `("A", "x")` present in the
index but the 1990–2018 year columns absent, `subset_data` raises a
key-lookup error instead of returning the 29-row table the claim, as
universally stated, promises. -/
theorem subset_data_missing_years_cex :
    (("A", "x") ∈ vC3.idx) ∧ (subset_data vC3 ["A"] ["x"]).toOption = none := by
  decide

/-- C3 (amended): when additionally every year 1990–2018 occurs among the
columns and `years_view` is well-formed (data aligned with a duplicate-free
index), `subset_data` on nonempty duplicate-free requests whose pairs are
all present returns the transposed table: rows are exactly the 29 years
1990–2018, columns are the requested pairs, `|countries| × |indicators|`
many. -/
theorem subset_data_shape (v : PTable (String × String) ℚ)
    (countries indicators : List String)
    (hlen : v.data.length = v.idx.length) (hnd : v.idx.Nodup)
    (hC : countries.Nodup) (hI : indicators.Nodup)
    (hCne : countries ≠ []) (hIne : indicators ≠ [])
    (hpairs : ∀ c ∈ countries, ∀ i ∈ indicators, (c, i) ∈ v.idx)
    (hyears : ∀ y ∈ yearsList, y ∈ v.cols) :
    ∃ t, (subset_data v countries indicators).toOption = some t
      ∧ t.idx = yearsList ∧ t.idx.length = 29
      ∧ t.cols = v.idx.filter (fun k =>
          decide (k.1 ∈ countries) && decide (k.2 ∈ indicators))
      ∧ t.cols.length = countries.length * indicators.length := by
  have hcond : (countries.all (fun c => v.idx.any (fun k => k.1 = c))
      && indicators.all (fun i => v.idx.any (fun k => k.2 = i))
      && yearsList.all (fun y => decide (y ∈ v.cols))) = true := by
    rw [subset_checks_iff]
    obtain ⟨i0, hi0⟩ := List.exists_mem_of_ne_nil indicators hIne
    obtain ⟨c0, hc0⟩ := List.exists_mem_of_ne_nil countries hCne
    exact ⟨fun c hc => ⟨(c, i0), hpairs c hc i0 hi0, rfl⟩,
           fun i hi => ⟨(c0, i), hpairs c0 hc0 i hi, rfl⟩, hyears⟩
  have hkept : (((v.idx.zip v.data).filter (fun p =>
        decide (p.1.1 ∈ countries) && decide (p.1.2 ∈ indicators))).map (fun p => p.1))
      = v.idx.filter (fun k => decide (k.1 ∈ countries) && decide (k.2 ∈ indicators)) :=
    map_fst_filter_zip (fun k => decide (k.1 ∈ countries) && decide (k.2 ∈ indicators))
      v.idx v.data hlen.symm
  have hcount : (v.idx.filter (fun k =>
      decide (k.1 ∈ countries) && decide (k.2 ∈ indicators))).length
      = countries.length * indicators.length := by
    have hnd2 : (v.idx.filter (fun k =>
        decide (k.1 ∈ countries) && decide (k.2 ∈ indicators))).Nodup := hnd.filter _
    have hmemf : ∀ k : String × String,
        k ∈ v.idx.filter (fun k => decide (k.1 ∈ countries) && decide (k.2 ∈ indicators))
          ↔ k.1 ∈ countries ∧ k.2 ∈ indicators := by
      intro k
      rw [List.mem_filter]
      constructor
      · rintro ⟨_, hp⟩
        simp only [Bool.and_eq_true, decide_eq_true_eq] at hp
        exact hp
      · rintro ⟨h1, h2⟩
        refine ⟨?_, by simp [h1, h2]⟩
        simpa using hpairs k.1 h1 k.2 h2
    have htf : (v.idx.filter (fun k =>
        decide (k.1 ∈ countries) && decide (k.2 ∈ indicators))).toFinset
        = countries.toFinset ×ˢ indicators.toFinset := by
      ext k
      simp only [List.mem_toFinset, Finset.mem_product, hmemf k]
    calc (v.idx.filter (fun k =>
          decide (k.1 ∈ countries) && decide (k.2 ∈ indicators))).length
        = (v.idx.filter (fun k =>
            decide (k.1 ∈ countries) && decide (k.2 ∈ indicators))).toFinset.card :=
          (List.toFinset_card_of_nodup hnd2).symm
      _ = (countries.toFinset ×ˢ indicators.toFinset).card := by rw [htf]
      _ = countries.toFinset.card * indicators.toFinset.card := Finset.card_product _ _
      _ = countries.length * indicators.length := by
          rw [List.toFinset_card_of_nodup hC, List.toFinset_card_of_nodup hI]
  rw [← hkept] at hcount
  simp only [subset_data, hcond, if_true, eq_self_iff_true, Except.toOption]
  refine ⟨_, rfl, rfl, ?_, hkept, hcount⟩
  show yearsList.length = 29
  rfl

/-- Concrete well-formed years-view exercising `subset_data_shape`. -/
def vW3 : PTable (String × String) ℚ :=
  PTable.mk [("A", "x")] yearsList [List.replicate 29 (some 1)]

theorem subset_data_shape_witness :
    (vW3.data.length = vW3.idx.length ∧ vW3.idx.Nodup
      ∧ (["A"] : List String).Nodup ∧ (["x"] : List String).Nodup
      ∧ (["A"] : List String) ≠ [] ∧ (["x"] : List String) ≠ []
      ∧ (∀ c ∈ (["A"] : List String), ∀ i ∈ (["x"] : List String), (c, i) ∈ vW3.idx)
      ∧ (∀ y ∈ yearsList, y ∈ vW3.cols))
    ∧ ∃ t, (subset_data vW3 ["A"] ["x"]).toOption = some t
      ∧ t.idx = yearsList ∧ t.idx.length = 29
      ∧ t.cols = vW3.idx.filter (fun k =>
          decide (k.1 ∈ (["A"] : List String)) && decide (k.2 ∈ (["x"] : List String)))
      ∧ t.cols.length = (["A"] : List String).length * (["x"] : List String).length :=
  ⟨⟨by decide, by decide, by decide, by decide, by decide, by decide, by decide, by decide⟩,
   subset_data_shape vW3 ["A"] ["x"] (by decide) (by decide) (by decide) (by decide)
     (by decide) (by decide) (by decide) (by decide)⟩

/-- C4 counterexample input: both labels of every request appear somewhere
in the index, but the combinations `("A", "y")` and `("B", "x")` are
absent. -/
def vC4 : PTable (String × String) ℚ :=
  PTable.mk [("A", "x"), ("B", "y")] yearsList
    [List.replicate 29 (some 1), List.replicate 29 (some 2)]

/-- C4 counterexample: the requested combination `("A", "y")` is absent
from the index, yet `subset_data` raises no key-lookup error — it
silently returns a table with only the two present combinations as
columns (not the four requested ones). -/
theorem subset_data_silent_partial_cex :
    (("A", "y") ∉ vC4.idx) ∧ ("A", "y").1 ∈ (["A", "B"] : List String)
    ∧ ("A", "y").2 ∈ (["x", "y"] : List String)
    ∧ Option.map (fun t : PTable ℚ (String × String) => t.cols)
        (subset_data vC4 ["A", "B"] ["x", "y"]).toOption = some [("A", "x"), ("B", "y")] := by
  decide

/-- C4 (amended): `subset_data` fails with a key-lookup error exactly when
some requested country is absent from the country level of the row index,
some requested indicator absent from the indicator level, or some year
1990–2018 absent from the columns; a requested (country, indicator)
combination that is absent while both its labels are present is silently
dropped — every column of a successful result is a combination that is
present in the index and was requested. -/
theorem subset_data_error_iff (v : PTable (String × String) ℚ)
    (countries indicators : List String) :
    ((subset_data v countries indicators).toOption = none ↔
      ¬((∀ c ∈ countries, ∃ k ∈ v.idx, k.1 = c)
        ∧ (∀ i ∈ indicators, ∃ k ∈ v.idx, k.2 = i)
        ∧ (∀ y ∈ yearsList, y ∈ v.cols)))
    ∧ (∀ k, k ∈ (Option.map (fun t : PTable ℚ (String × String) => t.cols)
          (subset_data v countries indicators).toOption).getD []
        → k ∈ v.idx ∧ k.1 ∈ countries ∧ k.2 ∈ indicators) := by
  by_cases hcond : (countries.all (fun c => v.idx.any (fun k => k.1 = c))
      && indicators.all (fun i => v.idx.any (fun k => k.2 = i))
      && yearsList.all (fun y => decide (y ∈ v.cols))) = true
  · have hoks := (subset_checks_iff v countries indicators).mp hcond
    constructor
    · simp only [subset_data, hcond, if_true, eq_self_iff_true, Except.toOption]
      exact iff_of_false (by simp) (not_not_intro hoks)
    · intro k hk
      simp only [subset_data, hcond, if_true, eq_self_iff_true, Except.toOption,
        Option.map_some', Option.getD_some, transposeT] at hk
      rcases List.mem_map.mp hk with ⟨p, hpmem, hpk⟩
      rcases List.mem_filter.mp hpmem with ⟨hz, hpred⟩
      simp only [Bool.and_eq_true, decide_eq_true_eq] at hpred
      have h1 : p.1 ∈ v.idx := (List.of_mem_zip (by simpa using hz)).1
      subst hpk
      exact ⟨h1, hpred.1, hpred.2⟩
  · have hnoks : ¬((∀ c ∈ countries, ∃ k ∈ v.idx, k.1 = c)
        ∧ (∀ i ∈ indicators, ∃ k ∈ v.idx, k.2 = i)
        ∧ (∀ y ∈ yearsList, y ∈ v.cols)) :=
      fun hoks => hcond ((subset_checks_iff v countries indicators).mpr hoks)
    constructor
    · simp only [subset_data]
      rw [if_neg hcond]
      exact iff_of_true rfl hnoks
    · intro k hk
      simp only [subset_data] at hk
      rw [if_neg hcond] at hk
      simp [Except.toOption] at hk

theorem subset_data_error_iff_witness :
    ("A", "x") ∈ vC4.idx ∧ ("A", "x").1 ∈ (["A", "B"] : List String)
      ∧ ("A", "x").2 ∈ (["x", "y"] : List String) :=
  (subset_data_error_iff vC4 ["A", "B"] ["x", "y"]).2 ("A", "x") (by decide)

/-! ### C5: `filter_Methane_emission_data` versus the `data_read` contract -/

/-- C5: `filter_Methane_emission_data` applies exactly `data_read`'s
drop/rename (`dataPrep`), melt, coerce and years-pivot steps, except that
it restricts the rows to the requested countries and indicators before
melting — equivalently, filtering before the melt equals filtering the
melted rows afterwards — and finally slices the pivot's columns to the
label range `[start_year, end_year]` with both endpoints included. -/
theorem filter_slice_matches_read_contract (T : WideTable)
    (countries indicators : List String) (start_year end_year : ℚ) :
    filter_Methane_emission_data T countries indicators start_year end_year
      = colRangeSlice start_year end_year (pivotYears (coerceRows
          (meltRows (dataPrep T).2 (rowFilter countries indicators (dataPrep T).1))))
    ∧ meltRows (dataPrep T).2 (rowFilter countries indicators (dataPrep T).1)
      = (meltRows (dataPrep T).2 (dataPrep T).1).filter (fun r =>
          decide (r.country ∈ countries) && decide (r.indicator ∈ indicators))
    ∧ (filter_Methane_emission_data T countries indicators start_year end_year).cols
      = (pivotYears (coerceRows (meltRows (dataPrep T).2
          (rowFilter countries indicators (dataPrep T).1)))).cols.filter
          (fun y => qleb start_year y && qleb y end_year) := by
  refine ⟨rfl, ?_, rfl⟩
  unfold meltRows rowFilter
  rw [List.filter_flatMap]
  congr 1
  funext j
  rw [List.filter_map]
  congr 1

/-! ### C6: no all-missing column survives `data_read` -/

/-- No column of the table is entirely missing (checked positionally). -/
def noMissingColB (t : PTable κ γ) : Bool :=
  (List.range t.cols.length).all (fun j =>
    t.data.any (fun row => !(row.getD j none).isNone))

theorem filterMap_getElem_length (cs : List γ) :
    ∀ l : List ℕ, (∀ j ∈ l, j < cs.length) →
      (l.filterMap (fun j => cs[j]?)).length = l.length := by
  intro l
  induction l with
  | nil => simp
  | cons a as ih =>
    intro h
    have ha : a < cs.length := h a (by simp)
    rw [List.filterMap_cons, List.getElem?_eq_getElem ha]
    simp only [List.length_cons]
    rw [ih (fun j hj => h j (by simp [hj]))]

theorem dropAllNanCols_noMissing (t : PTable κ γ) :
    noMissingColB (dropAllNanCols t) = true := by
  simp only [noMissingColB, dropAllNanCols]
  rw [List.all_eq_true]
  intro j hj
  rw [List.mem_range] at hj
  set keep := (List.range t.cols.length).filter (fun j => !(colAllNone t.data j)) with hkeep
  have hksub : ∀ i ∈ keep, i < t.cols.length := by
    intro i hi
    exact List.mem_range.mp (List.mem_filter.mp hi).1
  rw [filterMap_getElem_length t.cols keep hksub] at hj
  have hjk : keep[j] ∈ keep := List.getElem_mem hj
  rcases List.mem_filter.mp hjk with ⟨hjr, hjp⟩
  have hfalse : colAllNone t.data keep[j] = false := by simpa using hjp
  have hex : ∃ row ∈ t.data, (row.getD keep[j] none).isNone = false := by
    unfold colAllNone at hfalse
    by_contra hall
    push_neg at hall
    have hcontra : t.data.all (fun row => (row.getD keep[j] none).isNone) = true := by
      rw [List.all_eq_true]
      intro row hrow
      simpa using hall row hrow
    rw [hcontra] at hfalse
    cases hfalse
  rcases hex with ⟨row, hrow, hval⟩
  rw [List.any_eq_true]
  refine ⟨keep.map (fun j0 => row.getD j0 none), List.mem_map_of_mem _ hrow, ?_⟩
  have hgd : (keep.map (fun j0 => row.getD j0 none)).getD j none = row.getD keep[j] none := by
    rw [List.getD_eq_getElem?_getD, List.getElem?_map, List.getElem?_eq_getElem hj]
    simp
  rw [hgd, hval]
  rfl

/-- C6: neither pivoted view returned by `data_read` — years-as-columns
nor countries-as-columns — contains a column whose entries are all
missing. -/
theorem data_read_no_all_missing (T : WideTable) :
    noMissingColB (data_read T).1 = true ∧ noMissingColB (data_read T).2 = true :=
  ⟨dropAllNanCols_noMissing _, dropAllNanCols_noMissing _⟩

/-! ### C7, C8, C10: `predict_future` -/

theorem setRow_append (l1 l2 : List (List ℚ)) (v : ℚ) :
    setRow (l1 ++ l2) l1.length v = l1 ++ setRow l2 0 v := by
  induction l1 with
  | nil => simp
  | cons a as ih => simp [setRow, ih]

theorem map_const_replicate (N : ℕ) (a b : ℚ) :
    (List.replicate N a).map (fun _ => b) = List.replicate N b := by
  induction N with
  | zero => rfl
  | succ k ih => simp [List.replicate_succ, ih]

theorem foldl_setRow_range (f : ℕ → ℚ) (N : ℕ) :
    ∀ (n m : ℕ), n ≤ m →
      (List.range n).foldl (fun acc i => setRow acc i (f i))
          (List.replicate m (List.replicate N (0 : ℚ)))
        = (List.range n).map (fun i => List.replicate N (f i))
          ++ List.replicate (m - n) (List.replicate N (0 : ℚ)) := by
  intro n
  induction n with
  | zero => intro m _; simp
  | succ k ih =>
    intro m h
    rw [List.range_succ, List.foldl_append, ih m (Nat.le_of_succ_le h)]
    simp only [List.foldl_cons, List.foldl_nil]
    have hmk : m - k = (m - (k + 1)) + 1 := by omega
    rw [hmk, List.replicate_succ]
    have hlen : ((List.range k).map (fun i => List.replicate N (f i))).length = k := by simp
    have happ := setRow_append ((List.range k).map (fun i => List.replicate N (f i)))
      (List.replicate N (0 : ℚ) :: List.replicate (m - (k + 1)) (List.replicate N (0 : ℚ)))
      (f k)
    rw [hlen] at happ
    rw [happ]
    simp only [setRow, map_const_replicate]
    simp

theorem map_getD_range {β : Type} (g : List (Option ℚ) → β) :
    ∀ l : List (List (Option ℚ)),
      (List.range l.length).map (fun i => g (l.getD i [])) = l.map g := by
  intro l
  induction l with
  | nil => simp
  | cons a as ih =>
    rw [List.length_cons, List.range_succ_eq_map, List.map_cons, List.map_map]
    simp only [Function.comp_def, List.getD_cons_zero, List.getD_cons_succ, List.map_cons]
    rw [ih]

/-- The per-row fit loop of `predict_future`, solved: row `i` of the
result is `popt[1]` for row `i` of the filtered slice, broadcast across
the `N` year columns, with the model `exp_growth` fitted against the
zero-based positions `0..N-1`. -/
theorem predict_future_eq
    (cf : (ℚ → ℚ → ℚ → ℚ) → List ℚ → List (Option ℚ) → ((ℚ × ℚ) × List (List ℚ)))
    (sq : ℚ → ℚ) (tp : ℚ → ℕ → ℚ) (rexp : ℚ → ℚ) (T : WideTable)
    (countries indicators : List String) (start_year end_year : ℚ) :
    predict_future cf sq tp rexp T countries indicators start_year end_year
      = (List.range
            (filter_Methane_emission_data T countries indicators start_year end_year).idx.length).map
          (fun i => List.replicate
            (filter_Methane_emission_data T countries indicators start_year end_year).cols.length
            ((cf (exp_growth rexp)
              ((List.range
                (filter_Methane_emission_data T countries indicators start_year end_year).cols.length).map
                (fun k => (k : ℚ)))
              ((filter_Methane_emission_data T countries indicators start_year end_year).data.getD i
                [])).1.2)) := by
  simp only [predict_future]
  rw [foldl_setRow_range _ _ _ _ (le_refl _)]
  simp

theorem filter_data_length (T : WideTable) (countries indicators : List String) (s e : ℚ) :
    (filter_Methane_emission_data T countries indicators s e).data.length
      = (filter_Methane_emission_data T countries indicators s e).idx.length := by
  simp [filter_Methane_emission_data, colRangeSlice, pivotYears]

/-- C7: in `predict_future`, the independent variable handed to the
exponential fit for every row of the filtered slice is the zero-based
column position list `0..N-1` (`np.arange(data.shape[1])`, not the
calendar-year labels), the fitted model is `exp_growth` — `a·e^(b·x)`,
whose second parameter is the exponent coefficient `b` — and the value
reported for the row is exactly that coefficient, `popt.1.2`, broadcast
across the row. -/
theorem predict_growth_rate_index_fit
    (cf : (ℚ → ℚ → ℚ → ℚ) → List ℚ → List (Option ℚ) → ((ℚ × ℚ) × List (List ℚ)))
    (sq : ℚ → ℚ) (tp : ℚ → ℕ → ℚ) (rexp : ℚ → ℚ) (T : WideTable)
    (countries indicators : List String) (start_year end_year : ℚ) :
    predict_future cf sq tp rexp T countries indicators start_year end_year
      = (filter_Methane_emission_data T countries indicators start_year end_year).data.map
          (fun row => List.replicate
            (filter_Methane_emission_data T countries indicators start_year end_year).cols.length
            ((cf (exp_growth rexp)
              ((List.range
                (filter_Methane_emission_data T countries indicators start_year end_year).cols.length).map
                (fun k => (k : ℚ))) row).1.2)) := by
  rw [predict_future_eq, ← filter_data_length T countries indicators start_year end_year]
  exact map_getD_range
    (fun row => List.replicate
      (filter_Methane_emission_data T countries indicators start_year end_year).cols.length
      ((cf (exp_growth rexp)
        ((List.range
          (filter_Methane_emission_data T countries indicators start_year end_year).cols.length).map
          (fun k => (k : ℚ))) row).1.2))
    (filter_Methane_emission_data T countries indicators start_year end_year).data

/-- C10: the array returned by `predict_future` is two-dimensional with
the same shape as the filtered slice — one row per (country, indicator)
key, one column per selected year — and every entry of row `i` is the one
fitted exponent for that row, broadcast across the row; it is not a
one-dimensional per-country vector. -/
theorem predict_shape_broadcast
    (cf : (ℚ → ℚ → ℚ → ℚ) → List ℚ → List (Option ℚ) → ((ℚ × ℚ) × List (List ℚ)))
    (sq : ℚ → ℚ) (tp : ℚ → ℕ → ℚ) (rexp : ℚ → ℚ) (T : WideTable)
    (countries indicators : List String) (start_year end_year : ℚ) :
    (predict_future cf sq tp rexp T countries indicators start_year end_year).map List.length
      = List.replicate
          (filter_Methane_emission_data T countries indicators start_year end_year).idx.length
          (filter_Methane_emission_data T countries indicators start_year end_year).cols.length
    ∧ predict_future cf sq tp rexp T countries indicators start_year end_year
      = (List.range
            (filter_Methane_emission_data T countries indicators start_year end_year).idx.length).map
          (fun i => List.replicate
            (filter_Methane_emission_data T countries indicators start_year end_year).cols.length
            ((cf (exp_growth rexp)
              ((List.range
                (filter_Methane_emission_data T countries indicators start_year end_year).cols.length).map
                (fun k => (k : ℚ)))
              ((filter_Methane_emission_data T countries indicators start_year end_year).data.getD i
                [])).1.2)) := by
  refine ⟨?_, predict_future_eq cf sq tp rexp T countries indicators start_year end_year⟩
  rw [predict_future_eq, List.map_map]
  simp [Function.comp_def]

/-- `curve_fit` stand-ins agreeing on the fitted parameters `(a, b)` but
returning different covariance matrices. -/
def cfW1 : (ℚ → ℚ → ℚ → ℚ) → List ℚ → List (Option ℚ) → ((ℚ × ℚ) × List (List ℚ)) :=
  fun _ _ _ => ((1, 0), [[1]])

def cfW2 : (ℚ → ℚ → ℚ → ℚ) → List ℚ → List (Option ℚ) → ((ℚ × ℚ) × List (List ℚ)) :=
  fun _ _ _ => ((1, 0), [[4]])

/-- A one-row, three-year wide table for the `predict_future` batch. -/
def cexT8 : WideTable :=
  WideTable.mk ["1990", "1991", "1992"] [WideRow.mk "A" "ac" "M" "mc" ["2", "4", "8"]]

/-- C8 counterexample: two fitters that agree on the parameters but differ
in covariance yield different confidence half-widths from `err_ranges`,
yet `predict_future` returns identical results on the same batch — so the
confidence interval computed per row is not part of the result delivered
to the caller. -/
theorem predict_drops_ci_cex :
    err_ranges id (fun _ _ => -2) (fun _ => 1) [0, 1, 2] [2, 4, 8] [1, 0] [[1]] (1/20)
        ≠ err_ranges id (fun _ _ => -2) (fun _ => 1) [0, 1, 2] [2, 4, 8] [1, 0] [[4]] (1/20)
    ∧ predict_future cfW1 id (fun _ _ => -2) (fun _ => 1) cexT8 ["A"] ["M"] 1990 1992
        = predict_future cfW2 id (fun _ _ => -2) (fun _ => 1) cexT8 ["A"] ["M"] 1990 1992 := by
  constructor
  · norm_num [err_ranges, exp_growth, diag]
  · rw [predict_future_eq, predict_future_eq]
    simp [cfW1, cfW2]

/-- C8 (amended): `predict_future` computes the confidence interval for
every row and then discards it: the delivered value depends only on the
fitted parameters, so any two fitters agreeing on `popt` — whatever their
covariance, hence whatever the half-widths derived from it — produce the
same result. -/
theorem predict_future_ignores_covariance
    (cf cg : (ℚ → ℚ → ℚ → ℚ) → List ℚ → List (Option ℚ) → ((ℚ × ℚ) × List (List ℚ)))
    (sq : ℚ → ℚ) (tp : ℚ → ℕ → ℚ) (rexp : ℚ → ℚ) (T : WideTable)
    (countries indicators : List String) (start_year end_year : ℚ)
    (h : ∀ model xs ys, (cf model xs ys).1 = (cg model xs ys).1) :
    predict_future cf sq tp rexp T countries indicators start_year end_year
      = predict_future cg sq tp rexp T countries indicators start_year end_year := by
  rw [predict_future_eq, predict_future_eq]
  simp only [h]

theorem predict_future_ignores_covariance_witness :
    predict_future cfW1 id (fun _ _ => -2) (fun _ => 1) cexT8 ["A"] ["M"] 1990 1991
      = predict_future cfW2 id (fun _ _ => -2) (fun _ => 1) cexT8 ["A"] ["M"] 1990 1991 :=
  predict_future_ignores_covariance cfW1 cfW2 id (fun _ _ => -2) (fun _ => 1) cexT8
    ["A"] ["M"] 1990 1991 (fun _ _ _ => rfl)

/-! ### C9: the coercion step is total and lossy-safe -/

/-- C9: the Year/Value coercion step of `data_read` is a total map: it
sends every melted row to the same row with `parseNum` applied to the
year and value tokens — `none` (missing) for every non-numeric token —
and `data_read` is the total composition built from it; no token ever
raises. -/
theorem coercion_total_and_lossy :
    (∀ rows : List TidyRow, (coerceRows rows).length = rows.length
      ∧ coerceRows rows = rows.map (fun r =>
          NumRow.mk r.country r.indicator (parseNum r.year) (parseNum r.value)))
    ∧ (∀ T : WideTable, data_read T
        = (dropAllNanCols (pivotYears (coerceRows (meltRows (dataPrep T).2 (dataPrep T).1))),
           dropAllNanCols (pivotCountries (coerceRows (meltRows (dataPrep T).2 (dataPrep T).1)))))
    ∧ parseNum "abc" = none ∧ parseNum "19x0" = none ∧ parseNum "" = none
    ∧ parseNum "1990" = some 1990 ∧ parseNum "3.5" = some (7/2)
    ∧ parseNum "-2.25" = some (-(9/4)) := by
  refine ⟨fun rows => ⟨by simp [coerceRows], rfl⟩, fun T => rfl,
    by decide, by decide, by decide, ?_, ?_, ?_⟩
  · rfl
  · rw [show parseNum "3.5" = some ((3 : ℚ) + (5 : ℚ) / 10 ^ 1) from rfl]
    norm_num
  · rw [show parseNum "-2.25" = some (-((2 : ℚ) + (25 : ℚ) / 10 ^ 2)) from rfl]
    norm_num
